import Mathlib

/-!
Verification development for the Meresu-JSW backend text-classification and
extraction pipeline.

The definitions below are a shallow embedding of the Python source:

* `bse_scraper2.py` / `bse_scraper.py`: the keyword tables
  (`INFRA_KEYWORDS`, `EXCLUDE_KEYWORDS`, `PROJECT_TYPE_MAPPING`,
  `INDIAN_LOCATIONS`) and the pure functions `is_infrastructure_related`,
  `extract_project_type`, `extract_location`, `extract_contract_value`.
  (The three extractors and the two tables they use are line-for-line
  identical in the two scraper files.)
* `deepseek_pipeline.py`: `NewsQualificationPipeline._call_ai_model`
  (model fallback chain), the response-parsing tail of
  `_qualify_news_content`, `process_news` and `_save_qualified_news`
  (batch persistence).

Modelling conventions:

* Python `str` is Lean `String`; `needle in hay` is `strContains hay needle`;
  `str.lower()` / `str.title()` are modelled for ASCII letters
  (every keyword in the tables is ASCII).
* The regular expressions are embedded as explicit scanners over `List Char`.
  Each scanner matches the pattern at one position; `regexFirstCapture`
  scans positions left to right, which is exactly the first (leftmost)
  element of Python's `re.findall` — the source only ever uses
  `matches[0]`.  The patterns here need no backtracking: every greedy
  subpattern (`\.?`, `\s*`, `\d+`, `(?:,\d+)*`, `(?:\.\d+)?`, optional
  currency group) is followed by a subpattern that cannot consume the
  characters the greedy step took, so committing to the greedy choice is
  equivalent to Python's backtracking semantics.
* AI model calls are external effects; they enter the embedding as oracle
  data: per-stage `Option String` results in `AIEnv` for the fallback
  chain, an abstract `loads` function for `json.loads`, and a
  `RecordOutcome` per news record for the two per-record AI tasks.
* File contents are modelled by the decoded data they hold
  (`List String` for `sent_headlines.json`, rows for
  `qualified_news.csv`); the on-disk bytes are a deterministic function
  of that data, so "byte-identical" is equality of the modelled content.
-/

/-! ## String utilities (models of Python `str` methods) -/

/-- ASCII model of Python `str.lower` on a single character. -/
def lowerChar (c : Char) : Char :=
  if 'A' ≤ c ∧ c ≤ 'Z' then Char.ofNat (c.toNat + 32) else c

/-- ASCII model of Python `str.upper` on a single character. -/
def upperChar (c : Char) : Char :=
  if 'a' ≤ c ∧ c ≤ 'z' then Char.ofNat (c.toNat - 32) else c

def isAsciiLower (c : Char) : Bool := 'a' ≤ c && c ≤ 'z'

def isAsciiUpper (c : Char) : Bool := 'A' ≤ c && c ≤ 'Z'

def isAsciiAlpha (c : Char) : Bool := isAsciiLower c || isAsciiUpper c

def isDigitC (c : Char) : Bool := '0' ≤ c && c ≤ '9'

/-- The characters matched by the regex class `\s` (ASCII). -/
def isSpaceC (c : Char) : Bool :=
  c = ' ' || c = '\t' || c = '\n' || c = '\x0b' || c = '\x0c' || c = '\r'

/-- Model of Python `str.lower()`. -/
def lowerStr (s : String) : String := ⟨s.data.map lowerChar⟩

/-- Helper for `titleStr`: the `Bool` argument records whether the previous
character was alphabetic (Python `str.title` uppercases a letter exactly
when the preceding character is not a letter). -/
def titleAux : Bool → List Char → List Char
  | _, [] => []
  | prevAlpha, c :: cs =>
    (if isAsciiAlpha c then (if prevAlpha then lowerChar c else upperChar c) else c)
      :: titleAux (isAsciiAlpha c) cs

/-- Model of Python `str.title()`. -/
def titleStr (s : String) : String := ⟨titleAux false s.data⟩

/-- Predicate `isPrefixL needle l` : does `l` start with `needle`? -/
def isPrefixL : List Char → List Char → Bool
  | [], _ => true
  | _ :: _, [] => false
  | c :: cs, d :: ds => c = d && isPrefixL cs ds

/-- Predicate `containsL hay needle` : does `needle` occur as a contiguous substring
of `hay`?  Model of Python `needle in hay` for strings. -/
def containsL : List Char → List Char → Bool
  | hay, needle =>
    if isPrefixL needle hay then true
    else
      match hay with
      | [] => false
      | _ :: t => containsL t needle

/-- Model of Python `needle in hay` (substring test) on `String`. -/
def strContains (hay needle : String) : Bool := containsL hay.data needle.data

/-! ## Keyword tables (from `bse_scraper2.py`; identical in `bse_scraper.py`
where present) -/

/-- Table `INFRA_KEYWORDS` from `bse_scraper2.py`. -/
def INFRA_KEYWORDS : List String := [
  -- Steel and Metal
  "steel", "stainless steel", "metal", "metallurgy", "iron", "ore",
  "pig iron", "sponge iron", "steel plant", "rolling mill", "furnace",
  "steel capacity", "steel production", "steel manufacturing",
  -- Manufacturing and Production
  "factory", "plant", "production", "manufacturing", "assembly line",
  "capacity expansion", "new facility", "greenfield", "brownfield",
  "production capacity", "manufacturing unit", "industrial unit",
  "commissioning", "commercial production", "trial production",
  -- Automotive and Vehicles
  "automotive", "vehicle", "car", "truck", "bus", "two-wheeler",
  "electric vehicle", "ev", "automobile", "auto component",
  "vehicle production", "car manufacturing", "assembly plant",
  -- Construction and Infrastructure
  "infrastructure", "construction", "project", "civil works",
  "building", "development", "infrastructure work", "construction work",
  "infra project", "infrastructure development", "civil construction",
  -- Transportation Infrastructure
  "highway", "road", "bridge", "metro", "railway", "airport",
  "port", "terminal", "transport", "flyover", "tunnel", "station",
  "rail corridor", "expressway", "roadway", "freight corridor",
  -- Energy and Power
  "power plant", "energy", "solar", "wind", "transmission",
  "substation", "renewable", "hydro", "thermal", "electricity",
  "power generation", "power project", "solar park", "wind farm",
  "power transmission", "power distribution", "grid", "megawatt",
  -- Urban Development and Real Estate
  "smart city", "urban", "township", "municipal", "city development",
  "real estate", "residential", "commercial", "industrial",
  "housing", "property development", "mixed-use", "tech park",
  "it park", "sez", "special economic zone",
  -- Water and Environment
  "water supply", "water treatment", "sewage", "irrigation",
  "pipeline", "water project", "desalination", "effluent",
  "water infrastructure", "drainage", "reservoir",
  -- Project Awards and Contracts
  "order", "contract", "awarded", "secured", "bagged",
  "tender", "bid", "LOA", "letter of award", "work order",
  "order win", "new order", "contract win", "project win",
  "order book", "order inflow", "order received",
  -- Engineering and Technical
  "EPC", "engineering", "procurement", "technical", "design build",
  "turnkey", "design and build", "engineering works",
  -- Industrial and Process
  "cement", "chemical", "refinery", "petrochemical", "textile",
  "pharma", "food processing", "industrial park", "logistics park",
  "warehouse", "storage terminal", "data center", "industrial corridor",
  -- Value and Size Indicators
  "crore", "million", "billion", "value", "worth", "capacity",
  "tonnes", "tons", "tpa", "mtpa", "mw", "gw", "sqft", "acres"]

/-- Table `EXCLUDE_KEYWORDS` from `bse_scraper2.py`. -/
def EXCLUDE_KEYWORDS : List String := [
  -- Corporate Events
  "trading window", "board meeting", "agm", "egm", "postal ballot",
  "investor meet", "investor presentation", "annual report",
  "quarterly results", "financial results", "dividend",
  -- Regulatory
  "compliance", "regulation 30", "sebi", "disclosure requirements",
  "listing obligations", "corporate governance",
  -- Administrative
  "appointment", "resignation", "key managerial", "director",
  "company secretary", "auditor", "closure of register",
  -- Others
  "credit rating", "share transfer", "shareholding pattern",
  "certificate", "intimation", "clarification",
  -- Exclude specific updates
  "trading update", "business update", "covid update",
  "operational update", "status update", "progress update"]

/-- The local `value_indicators` list of `is_infrastructure_related`. -/
def value_indicators : List String :=
  ["rs.", "rs", "inr", "usd", "₹", "$", "crore", "million", "billion",
   "tonnes", "tons", "tpa", "mtpa", "mw", "gw", "sqft", "acres"]

/-- The local `strong_keywords` list of `is_infrastructure_related`. -/
def strong_keywords : List String :=
  ["project", "infrastructure", "construction", "awarded", "contract", "order",
   "steel", "factory", "plant", "production", "manufacturing", "capacity",
   "facility", "commissioning", "commercial production"]

/-- Table `PROJECT_TYPE_MAPPING` from `bse_scraper2.py` (identical in
`bse_scraper.py`), as an ordered association list: Python dicts preserve
insertion order and `extract_project_type` iterates `.items()` in that
order. -/
def PROJECT_TYPE_MAPPING : List (String × String) := [
  -- Energy and Power
  ("solar", "Renewable Energy - Solar"),
  ("solar park", "Renewable Energy - Solar"),
  ("solar power", "Renewable Energy - Solar"),
  ("solar plant", "Renewable Energy - Solar"),
  ("solar project", "Renewable Energy - Solar"),
  ("solar energy", "Renewable Energy - Solar"),
  ("wind", "Renewable Energy - Wind"),
  ("wind farm", "Renewable Energy - Wind"),
  ("wind power", "Renewable Energy - Wind"),
  ("wind energy", "Renewable Energy - Wind"),
  ("hydro", "Renewable Energy - Hydro"),
  ("hydroelectric", "Renewable Energy - Hydro"),
  ("hydropower", "Renewable Energy - Hydro"),
  ("thermal", "Power - Thermal"),
  ("coal", "Power - Thermal"),
  ("gas", "Power - Thermal/Gas"),
  ("power plant", "Power Generation"),
  ("power generation", "Power Generation"),
  ("electricity", "Power Generation"),
  ("transmission", "Power Transmission"),
  ("substation", "Power Transmission"),
  ("grid", "Power Transmission"),
  -- Transportation
  ("highway", "Transportation - Highway"),
  ("expressway", "Transportation - Highway"),
  ("road", "Transportation - Road"),
  ("roadway", "Transportation - Road"),
  ("bridge", "Transportation - Bridge"),
  ("flyover", "Transportation - Bridge"),
  ("metro", "Transportation - Metro"),
  ("railway", "Transportation - Railway"),
  ("rail", "Transportation - Railway"),
  ("airport", "Transportation - Airport"),
  ("port", "Transportation - Port"),
  ("terminal", "Transportation - Port/Terminal"),
  ("logistics", "Transportation - Logistics"),
  -- Construction
  ("construction", "Construction"),
  ("building", "Construction - Building"),
  ("residential", "Construction - Residential"),
  ("commercial", "Construction - Commercial"),
  ("housing", "Construction - Residential"),
  ("real estate", "Real Estate"),
  ("property", "Real Estate"),
  ("township", "Urban Development"),
  ("smart city", "Urban Development"),
  ("mixed-use", "Real Estate - Mixed Use"),
  ("sez", "Special Economic Zone"),
  ("industrial park", "Industrial Park"),
  ("tech park", "IT/Tech Park"),
  ("it park", "IT/Tech Park"),
  ("data center", "Data Center"),
  -- Water
  ("water supply", "Water Infrastructure"),
  ("water treatment", "Water Infrastructure"),
  ("sewage", "Water Infrastructure"),
  ("irrigation", "Water Infrastructure"),
  ("pipeline", "Pipeline"),
  ("water project", "Water Infrastructure"),
  ("desalination", "Water Infrastructure"),
  ("drainage", "Water Infrastructure"),
  ("reservoir", "Water Infrastructure"),
  -- Manufacturing
  ("steel", "Manufacturing - Steel"),
  ("iron", "Manufacturing - Steel"),
  ("metal", "Manufacturing - Metal"),
  ("metallurgy", "Manufacturing - Metal"),
  ("cement", "Manufacturing - Cement"),
  ("chemical", "Manufacturing - Chemical"),
  ("petrochemical", "Manufacturing - Petrochemical"),
  ("refinery", "Manufacturing - Refinery"),
  ("textile", "Manufacturing - Textile"),
  ("pharma", "Manufacturing - Pharmaceutical"),
  ("food processing", "Manufacturing - Food Processing"),
  ("factory", "Manufacturing"),
  ("plant", "Manufacturing"),
  ("manufacturing", "Manufacturing"),
  ("production", "Manufacturing"),
  -- Default
  ("infrastructure", "Infrastructure"),
  ("project", "General Project"),
  ("epc", "EPC"),
  ("engineering", "Engineering Services"),
  ("contract", "Contract"),
  ("order", "Order/Contract")]

/-- Table `INDIAN_LOCATIONS` from `bse_scraper2.py` (identical in
`bse_scraper.py`): states and union territories first, then major cities;
note `"delhi"` appears among the states block, before `"mumbai"`. -/
def INDIAN_LOCATIONS : List String := [
  "andhra pradesh", "arunachal pradesh", "assam", "bihar", "chhattisgarh", "goa", "gujarat",
  "haryana", "himachal pradesh", "jharkhand", "karnataka", "kerala", "madhya pradesh",
  "maharashtra", "manipur", "meghalaya", "mizoram", "nagaland", "odisha", "punjab", "rajasthan",
  "sikkim", "tamil nadu", "telangana", "tripura", "uttar pradesh", "uttarakhand", "west bengal",
  "delhi", "chandigarh", "puducherry", "ladakh", "jammu and kashmir", "lakshadweep",
  "andaman and nicobar",
  -- Major cities
  "mumbai", "delhi", "bangalore", "bengaluru", "hyderabad", "chennai", "kolkata", "ahmedabad",
  "pune", "jaipur", "lucknow", "kanpur", "nagpur", "indore", "thane", "bhopal", "visakhapatnam",
  "surat", "coimbatore", "kochi", "vadodara", "agra", "nashik", "patna", "faridabad", "meerut",
  "rajkot", "kalyan", "vasai", "varanasi", "srinagar", "ghaziabad", "amritsar", "raipur"]

/-! ## `is_infrastructure_related` (`bse_scraper2.py`, lines 257-285) -/

/-- Embedding of `is_infrastructure_related(title, company, security_code)`.
The `security_code` argument is accepted and ignored, as in the source. -/
def is_infrastructure_related (title company security_code : String) : Bool :=
  let title_lower := lowerStr title
  let company_lower := lowerStr company
  -- First check exclusions
  if EXCLUDE_KEYWORDS.any (fun keyword => strContains title_lower (lowerStr keyword)) then
    false
  else
    let has_value := value_indicators.any (fun indicator => strContains title_lower indicator)
    let has_infra_keyword := INFRA_KEYWORDS.any (fun keyword =>
      strContains title_lower (lowerStr keyword) || strContains company_lower (lowerStr keyword))
    has_infra_keyword &&
      (has_value || strong_keywords.any (fun keyword => strContains title_lower keyword))

/-! ## `extract_project_type` (`bse_scraper2.py`, lines 287-303) -/

/-- First element of maximal keyword length.  Python sorts `matches` by
`len(x[0])` descending with the stable `list.sort`, then takes
`matches[0]`; the head of that stable sort is exactly the first listed
element whose keyword length is maximal, which is what this function
computes. -/
def firstMaxByLen : List (String × String) → Option (String × String)
  | [] => none
  | kv :: rest =>
    match firstMaxByLen rest with
    | none => some kv
    | some best => if best.1.length > kv.1.length then some best else some kv

/-- Embedding of `extract_project_type(text)`. -/
def extract_project_type (text : String) : String :=
  let text_lower := lowerStr text
  let matchesList := PROJECT_TYPE_MAPPING.filter
    (fun kv => strContains text_lower (lowerStr kv.1))
  match firstMaxByLen matchesList with
  | some kv => kv.2
  | none => "Infrastructure Project"

/-! ## Regex scanners for `extract_location` and `extract_contract_value`

Each `match*At` function matches its pattern anchored at the start of the
given character list and returns the first capture group (or, for
`matchAlt`, the rest of the input after the literal alternative).
`regexFirstCapture` then scans all start positions left to right, giving
the leftmost match — `re.findall(...)[0]`. -/

/-- Ordered alternation of string literals (regex `(?:a|b|...)`): returns
the remaining input after the first alternative that is a prefix.  Greedy
optional characters such as `rs\.?` are encoded as the two alternatives
`["rs.", "rs"]` in greedy order. -/
def matchAlt : List String → List Char → Option (List Char)
  | [], _ => none
  | a :: rest, l => if isPrefixL a.data l then some (l.drop a.data.length) else matchAlt rest l

/-- Greedy `(?:,\d+)*`, fuel-bounded (each iteration consumes at least two
characters, so `fuel = length of the input` is always enough).  Returns
(consumed characters, rest). -/
def matchCommaGroups : Nat → List Char → List Char × List Char
  | 0, l => ([], l)
  | _ + 1, [] => ([], [])
  | fuel + 1, c :: r =>
    if c = ',' then
      let (ds, r1) := r.span isDigitC
      if ds.isEmpty then ([], c :: r)
      else
        let (more, r2) := matchCommaGroups fuel r1
        (c :: (ds ++ more), r2)
    else ([], c :: r)

/-- Greedy optional `(?:\.\d+)?`.  Returns (consumed characters, rest). -/
def matchDecimalAt : List Char → List Char × List Char
  | '.' :: r =>
    let (ds, r1) := r.span isDigitC
    if ds.isEmpty then ([], '.' :: r) else ('.' :: ds, r1)
  | l => ([], l)

/-- The number capture group `(\d+(?:,\d+)*(?:\.\d+)?)`, anchored.
Returns (captured characters, rest). -/
def matchNumberAt (l : List Char) : Option (List Char × List Char) :=
  let (ds, r1) := l.span isDigitC
  if ds.isEmpty then none
  else
    let (grs, r2) := matchCommaGroups r1.length r1
    let (dec, r3) := matchDecimalAt r2
    some (ds ++ grs ++ dec, r3)

/-- The magnitude units shared by the INR pattern and the "value of"
pattern: `(?:crore|cr\.?|lakh|lac|million|mn|billion|bn)`. -/
def magnitudeUnits : List String :=
  ["crore", "cr.", "cr", "lakh", "lac", "million", "mn", "billion", "bn"]

/-- Pattern `inr_pattern`, anchored: `(?:rs\.?|inr|₹)\s*(\d+(?:,\d+)*(?:\.\d+)?)\s*`
followed by a magnitude unit.  Returns the capture group. -/
def matchInrAt (l : List Char) : Option (List Char) :=
  match matchAlt ["rs.", "rs", "inr", "₹"] l with
  | none => none
  | some r1 =>
    let r2 := r1.dropWhile isSpaceC
    match matchNumberAt r2 with
    | none => none
    | some (num, r3) =>
      let r4 := r3.dropWhile isSpaceC
      match matchAlt magnitudeUnits r4 with
      | none => none
      | some _ => some num

/-- Pattern `usd_pattern`, anchored: `(?:usd|\$)\s*(\d+(?:,\d+)*(?:\.\d+)?)\s*`
followed by `(?:million|mn|billion|bn)`. -/
def matchUsdAt (l : List Char) : Option (List Char) :=
  match matchAlt ["usd", "$"] l with
  | none => none
  | some r1 =>
    let r2 := r1.dropWhile isSpaceC
    match matchNumberAt r2 with
    | none => none
    | some (num, r3) =>
      let r4 := r3.dropWhile isSpaceC
      match matchAlt ["million", "mn", "billion", "bn"] r4 with
      | none => none
      | some _ => some num

/-- Pattern `value_of_pattern`, anchored:
`(?:value|worth|amount|order value|contract value|size) of ` then an
optional currency marker, `\s*`, the number capture, `\s*`, and a
magnitude unit. -/
def matchValueOfAt (l : List Char) : Option (List Char) :=
  match matchAlt ["value", "worth", "amount", "order value", "contract value", "size"] l with
  | none => none
  | some r1 =>
    match r1 with
    | ' ' :: 'o' :: 'f' :: ' ' :: r2 =>
      let r3 := match matchAlt ["rs.", "rs", "inr", "₹", "usd", "$"] r2 with
                | some r => r
                | none => r2
      let r4 := r3.dropWhile isSpaceC
      match matchNumberAt r4 with
      | none => none
      | some (num, r5) =>
        let r6 := r5.dropWhile isSpaceC
        match matchAlt magnitudeUnits r6 with
        | none => none
        | some _ => some num
    | _ => none

/-- Pattern `value_pattern` (the bare pass), anchored:
`(\d+(?:,\d+)*(?:\.\d+)?)\s*` followed by
`(?:crore|cr\.?|lakh|lac|million|mn|billion|bn|mw|gw|mwp)`. -/
def matchBareAt (l : List Char) : Option (List Char) :=
  match matchNumberAt l with
  | none => none
  | some (num, r1) =>
    let r2 := r1.dropWhile isSpaceC
    match matchAlt ["crore", "cr.", "cr", "lakh", "lac", "million", "mn", "billion", "bn",
                    "mw", "gw", "mwp"] r2 with
    | none => none
    | some _ => some num

/-- Word pattern `[A-Z][a-z]+`, anchored.  Returns (matched word, rest). -/
def matchUpperWordAt : List Char → Option (List Char × List Char)
  | [] => none
  | c :: r =>
    if isAsciiUpper c then
      let (lows, r1) := r.span isAsciiLower
      if lows.isEmpty then none else some (c :: lows, r1)
    else none

/-- Greedy `(?:\s+[A-Z][a-z]+)*`, fuel-bounded (each iteration consumes at
least three characters).  Returns (consumed characters, rest). -/
def matchMoreWords : Nat → List Char → List Char × List Char
  | 0, l => ([], l)
  | fuel + 1, l =>
    let (sp, r1) := l.span isSpaceC
    if sp.isEmpty then ([], l)
    else
      match matchUpperWordAt r1 with
      | none => ([], l)
      | some (w, r2) =>
        let (more, r3) := matchMoreWords fuel r2
        (sp ++ (w ++ more), r3)

/-- Pattern `location_pattern`, anchored: `in\s+([A-Z][a-z]+(?:\s+[A-Z][a-z]+)*)`.
Returns the capture group (the words and the whitespace between them,
excluding the whitespace after `in`). -/
def matchInAt : List Char → Option (List Char)
  | 'i' :: 'n' :: r =>
    let (sp, r1) := r.span isSpaceC
    if sp.isEmpty then none
    else
      match matchUpperWordAt r1 with
      | none => none
      | some (w, r2) =>
        let (more, _) := matchMoreWords r2.length r2
        some (w ++ more)
  | _ => none

/-- Leftmost match of an anchored scanner: tries every start position from
left to right.  This is the first element of Python's `re.findall`. -/
def regexFirstCapture (f : List Char → Option (List Char)) : List Char → Option (List Char)
  | [] => f []
  | l@(_ :: t) =>
    match f l with
    | some cap => some cap
    | none => regexFirstCapture f t

/-! ## `extract_location` (`bse_scraper2.py`, lines 305-321) -/

/-- Embedding of `extract_location(text)`.  The `for location in
INDIAN_LOCATIONS: if location in text_lower: return location.title()`
loop is `List.find?` over the table in order; the regex fallback runs on
the original (not lowercased) text, as in the source. -/
def extract_location (text : String) : String :=
  let text_lower := lowerStr text
  match INDIAN_LOCATIONS.find? (fun location => strContains text_lower location) with
  | some location => titleStr location
  | none =>
    match regexFirstCapture matchInAt text.data with
    | some cap => String.mk cap
    | none => ""

/-! ## `extract_contract_value` (`bse_scraper2.py`, lines 323-365) -/

/-- Embedding of `extract_contract_value(text)`.  `re.findall(p, text_lower)`
truthiness and `matches[0]` are modelled by the leftmost capture
(`regexFirstCapture`); `all_matches` is built by the same sequence of
conditional appends as the source, and the bare `value_pattern` match is
appended only when `all_matches` is still empty. -/
def extract_contract_value (text : String) : String :=
  let text_lower := lowerStr text
  let inr_matches := regexFirstCapture matchInrAt text_lower.data
  let usd_matches := regexFirstCapture matchUsdAt text_lower.data
  let value_matches := regexFirstCapture matchBareAt text_lower.data
  let value_of_matches := regexFirstCapture matchValueOfAt text_lower.data
  let all_matches : List String :=
    (match inr_matches with
     | some n => ["Rs. " ++ String.mk n ++ " crore"]
     | none => []) ++
    (match usd_matches with
     | some n => ["USD " ++ String.mk n ++ " million"]
     | none => []) ++
    (match value_of_matches with
     | some n =>
       if strContains text_lower "rs" || strContains text_lower "inr" ||
          strContains text_lower "₹" then
         ["Rs. " ++ String.mk n ++ " crore"]
       else if strContains text_lower "usd" || strContains text_lower "$" then
         ["USD " ++ String.mk n ++ " million"]
       else
         [String.mk n ++ " crore"]
     | none => [])
  let all_matches :=
    if all_matches.isEmpty then
      match value_matches with
      | some n => [String.mk n ++ " crore"]
      | none => []
    else all_matches
  match all_matches with
  | [] => ""
  | v :: _ => v

/-! ## `_call_ai_model` (`deepseek_pipeline.py`, lines 224-285)

The four fallback stages are external effects.  They enter the embedding
as an `AIEnv` oracle: for each stage, whether it is available (the
corresponding client object / API key is present) and, if attempted, its
outcome — `some response` for a normal return, `none` for a raised
exception (network error, timeout, ...).  Each stage's outcome field is
read at most once, mirroring the single `try` per stage in the source. -/

structure AIEnv where
  /-- Flag: `self.deepseek` is not `None` (langchain DeepSeek client initialized). -/
  hasDeepseekClient : Bool
  /-- Flag: `self.gemini` is not `None` (langchain Gemini client initialized). -/
  hasGeminiClient : Bool
  /-- Flag: `self.deepseek_api_key` is truthy (direct DeepSeek HTTP call possible). -/
  hasDeepseekKey : Bool
  /-- Flag: `self.gemini_api_key` is truthy (direct Gemini HTTP call possible). -/
  hasGeminiKey : Bool
  /-- Outcome of `self.deepseek.ainvoke(prompt)` if attempted. -/
  deepseekClientResult : Option String
  /-- Outcome of `self.gemini.ainvoke([...])` if attempted. -/
  geminiClientResult : Option String
  /-- Outcome of the direct `requests.post` DeepSeek call if attempted. -/
  deepseekDirectResult : Option String
  /-- Outcome of the direct `google.generativeai` call if attempted. -/
  geminiDirectResult : Option String

/-- Stage 4 of `_call_ai_model`: the direct Gemini API call, after which
`raise Exception("All AI model calls failed")`. -/
def tryGeminiDirect (e : AIEnv) : Except String String :=
  if e.hasGeminiKey then
    match e.geminiDirectResult with
    | some r => Except.ok r
    | none => Except.error "All AI model calls failed"
  else Except.error "All AI model calls failed"

/-- Stage 3 of `_call_ai_model`: the direct DeepSeek API call. -/
def tryDeepseekDirect (e : AIEnv) : Except String String :=
  if e.hasDeepseekKey then
    match e.deepseekDirectResult with
    | some r => Except.ok r
    | none => tryGeminiDirect e
  else tryGeminiDirect e

/-- Stage 2 of `_call_ai_model`: the langchain Gemini client. -/
def tryGeminiClient (e : AIEnv) : Except String String :=
  if e.hasGeminiClient then
    match e.geminiClientResult with
    | some r => Except.ok r
    | none => tryDeepseekDirect e
  else tryDeepseekDirect e

/-- Embedding of `_call_ai_model`: stage 1 (langchain DeepSeek client),
then the chain of stages 2-4.  `Except.error` models the terminal
`raise`. -/
def call_ai_model (e : AIEnv) : Except String String :=
  if e.hasDeepseekClient then
    match e.deepseekClientResult with
    | some r => Except.ok r
    | none => tryGeminiClient e
  else tryGeminiClient e

/-- Modelled from the spec's description of the fallback chain (§4.4 /
design note): the ordered list of outcomes of the *available* stages, in
the fixed order primary client, secondary client, primary direct HTTP,
secondary direct HTTP.  Used as the specification side of the refinement
theorem for `call_ai_model`. -/
def availableStageResults (e : AIEnv) : List (Option String) :=
  (if e.hasDeepseekClient then [e.deepseekClientResult] else []) ++
  (if e.hasGeminiClient then [e.geminiClientResult] else []) ++
  (if e.hasDeepseekKey then [e.deepseekDirectResult] else []) ++
  (if e.hasGeminiKey then [e.geminiDirectResult] else [])

/-- The first successful outcome in a list of stage outcomes. -/
def firstSuccess (l : List (Option String)) : Option String := l.findSome? id

/-! ## Response parsing in `_qualify_news_content`
(`deepseek_pipeline.py`, lines 208-222)

`json.loads` is library code; it enters the embedding as an abstract
`loads : String → Option α` — `some d` models a normal return of the
parsed value `d`, `none` models a raised `json.JSONDecodeError`/
`ValueError` (exactly the exceptions the source catches).  `str.find` /
`str.rfind` return `-1` on a miss, modelled with `Int` results.  The
embedding is a total function: the source region can only raise through
`json.loads`, and that exception is caught, so totality here is the
"never raises past this boundary" property. -/

/-- Model of Python `str.find(c)`: index of the first occurrence, `-1` if
absent. -/
def findIdx (s : List Char) (c : Char) : Int :=
  match s with
  | [] => -1
  | d :: t => if d = c then 0 else (let r := findIdx t c; if r < 0 then -1 else r + 1)

/-- Model of Python `str.rfind(c)`: index of the last occurrence, `-1` if
absent. -/
def rfindIdx (s : List Char) (c : Char) : Int :=
  match s with
  | [] => -1
  | d :: t =>
    let r := rfindIdx t c
    if r ≥ 0 then r + 1 else if d = c then 0 else -1

/-- Outcome of the parsing tail of `_qualify_news_content`: either the
dict returned by `json.loads`, or the literal fallback dict
`{"qualified": False, "reasoning": ...}` built by the source. -/
inductive QualOutcome (α : Type) where
  | parsed (d : α)
  | fallback (qualified : Bool) (reasoning : String)
deriving DecidableEq

/-- Embedding of the response-parsing tail of `_qualify_news_content`
(from `start_idx = result.find('{')` to the `except` clause).  The
`reasoning` string of the `except` branch interpolates `str(e)`; the
exception text is abstracted to a fixed non-empty stand-in. -/
def qualify_news_parse {α : Type} (loads : String → Option α) (result : String) :
    QualOutcome α :=
  let start_idx : Int := findIdx result.data '\x7b'
  let end_idx : Int := rfindIdx result.data '\x7d' + 1
  if start_idx ≥ 0 ∧ end_idx > start_idx then
    let json_str := String.mk ((result.data.drop start_idx.toNat).take (end_idx - start_idx).toNat)
    match loads json_str with
    | some d => QualOutcome.parsed d
    | none => QualOutcome.fallback false "Failed to parse AI model response: JSONDecodeError"
  else
    QualOutcome.fallback false "Failed to parse AI model response"

/-! ## `process_news` and `_save_qualified_news`
(`deepseek_pipeline.py`, lines 287-384) -/

/-- The `ContractNews` record (defined in `crawl4ai_agent.py`, consumed
by the pipeline). -/
structure ContractNews where
  title : String
  company : String
  project_type : String
  location : String
  contract_value : String
  date_published : String
  source_url : String
  description : String
deriving DecidableEq

/-- The qualification dict returned by the AI for one record, with the
fields `process_news` / `_save_qualified_news` read from it. -/
structure Qualification where
  qualified : Bool
  tag : String
  steel_requirements : String
  potential_value : String
  target_company : String
  urgency : String
  reasoning : String
deriving DecidableEq

/-- Oracle outcome of the two per-record AI tasks inside the `try` of the
`process_news` loop:
* `dupCheckError`    — `_check_headline_duplicate` raised (all model
  fallbacks failed); caught by the `except`, record skipped;
* `duplicate`        — the duplicate check returned `True`;
* `qualifyError`     — the duplicate check returned `False` (the record
  was confirmed unique) but `_qualify_news_content` raised; caught,
  record skipped;
* `completed q`      — the duplicate check returned `False` (confirmed
  unique) and `_qualify_news_content` returned the dict `q`. -/
inductive RecordOutcome where
  | dupCheckError
  | duplicate
  | qualifyError
  | completed (q : Qualification)
deriving DecidableEq

/-- Modelled contents of the two persisted files. -/
structure PipelineFiles where
  /-- Decoded content of `sent_headlines.json` (a JSON list of strings). -/
  headlinesFile : List String
  /-- Rows of `qualified_news.csv`, header row included. -/
  qualifiedFile : List (List String)
deriving DecidableEq

/-- Pipeline state relevant to a `process_news` call: the in-memory
`self.sent_headlines` and the two files. -/
structure PipelineState where
  sentHeadlines : List String
  files : PipelineFiles
deriving DecidableEq

/-- The header row written by `_save_qualified_news`. -/
def csvHeader : List String :=
  ["Title", "Company", "Project Type", "Location", "Contract Value", "Date Published",
   "Tag", "Steel Requirements", "Potential Value", "Target Company", "Urgency", "Reasoning"]

/-- The data row written by `_save_qualified_news` for one qualified item. -/
def csvRow (news : ContractNews) (q : Qualification) : List String :=
  [news.title, news.company, news.project_type, news.location, news.contract_value,
   news.date_published, q.tag, q.steel_requirements, q.potential_value, q.target_company,
   q.urgency, q.reasoning]

/-- Embedding of `_save_qualified_news(news_items)`: returns the new
content of `qualified_news.csv`.  On an empty list the method returns
early and the file is untouched; otherwise the file is rewritten in full
(opened with mode `'w'`). -/
def save_qualified_news (file : List (List String))
    (news_items : List (ContractNews × Qualification)) : List (List String) :=
  if news_items.isEmpty then file
  else csvHeader :: news_items.map (fun item => csvRow item.1 item.2)

/-- One iteration of the `for i, news in enumerate(news_items, 1)` loop of
`process_news`, acting on the accumulator
`(qualified_news, newly_sent_headlines)`. -/
def process_news_step
    (acc : List (ContractNews × Qualification) × List String)
    (item : ContractNews × RecordOutcome) :
    List (ContractNews × Qualification) × List String :=
  match item.2 with
  | RecordOutcome.dupCheckError => acc
  | RecordOutcome.duplicate => acc
  | RecordOutcome.qualifyError => acc
  | RecordOutcome.completed q =>
    if q.qualified then (acc.1 ++ [(item.1, q)], acc.2 ++ [item.1.title]) else acc

/-- Embedding of `process_news(news_items)`: each news item is paired with
the oracle outcome of its AI calls.  Returns the post-batch state and the
`qualified_news` return value.  The two persistence calls
(`_save_sent_headlines`, `_save_qualified_news`) happen only inside
`if newly_sent_headlines:`. -/
def process_news (st : PipelineState) (news_items : List (ContractNews × RecordOutcome)) :
    PipelineState × List (ContractNews × Qualification) :=
  let folded := news_items.foldl process_news_step ([], [])
  let qualified_news := folded.1
  let newly_sent_headlines := folded.2
  if newly_sent_headlines.isEmpty then (st, qualified_news)
  else
    let sent' := st.sentHeadlines ++ newly_sent_headlines
    ({ sentHeadlines := sent',
       files := { headlinesFile := sent',
                  qualifiedFile := save_qualified_news st.files.qualifiedFile qualified_news } },
     qualified_news)

/-- The (news, qualification) pairs of the records of a batch that were
accepted (confirmed unique and qualified) — the value `process_news`
accumulates into `qualified_news`. -/
def acceptedPairs : List (ContractNews × RecordOutcome) → List (ContractNews × Qualification)
  | [] => []
  | item :: rest =>
    match item.2 with
    | RecordOutcome.completed q =>
      if q.qualified then (item.1, q) :: acceptedPairs rest else acceptedPairs rest
    | _ => acceptedPairs rest

/-- The titles of the accepted records of a batch, in batch order — the
value `process_news` accumulates into `newly_sent_headlines`. -/
def acceptedTitles (news_items : List (ContractNews × RecordOutcome)) : List String :=
  (acceptedPairs news_items).map (fun p => p.1.title)

/-! ## Concrete batch data used by witnesses and counterexamples -/

/-- A record that the qualification oracle accepts. -/
def cexNewsA : ContractNews :=
  ⟨"Alpha wins contract", "Alpha Ltd", "General Project", "Pune", "Rs. 800 crore",
   "2025-03-01", "http://example.com/a", "Alpha wins a large highway contract"⟩

/-- A record that the duplicate check confirms unique but the
qualification oracle rejects. -/
def cexNewsB : ContractNews :=
  ⟨"Beta wins contract", "Beta Ltd", "General Project", "Delhi", "Rs. 5 crore",
   "2025-03-02", "http://example.com/b", "Beta wins a small IT services contract"⟩

/-- Qualification dict for `cexNewsA`: accepted. -/
def cexQualA : Qualification :=
  ⟨true, "Infrastructure-Contract_Won", "structural steel, rebar", "15%", "Alpha Ltd",
   "high", "large steel-intensive project"⟩

/-- Qualification dict for `cexNewsB`: confirmed unique but rejected. -/
def cexQualB : Qualification :=
  ⟨false, "", "", "", "", "low", "IT services need no steel"⟩

/-- Pre-batch persisted state: one previously sent headline. -/
def cexState : PipelineState :=
  ⟨["Old headline"], ⟨["Old headline"], [["stale row"]]⟩⟩

/-- Batch in which A is accepted and B is confirmed unique
(`RecordOutcome.completed` means the duplicate check returned `False`)
but rejected by qualification. -/
def cexBatch : List (ContractNews × RecordOutcome) :=
  [(cexNewsA, RecordOutcome.completed cexQualA),
   (cexNewsB, RecordOutcome.completed cexQualB)]

/-- Batch with a single accepted record. -/
def cexBatchAccepted : List (ContractNews × RecordOutcome) :=
  [(cexNewsA, RecordOutcome.completed cexQualA)]

/-- Batch producing no new headlines: a duplicate, a unique-but-rejected
record, and two records whose AI calls errored out. -/
def cexBatchNoNew : List (ContractNews × RecordOutcome) :=
  [(cexNewsA, RecordOutcome.duplicate),
   (cexNewsB, RecordOutcome.completed cexQualB),
   (cexNewsA, RecordOutcome.dupCheckError),
   (cexNewsB, RecordOutcome.qualifyError)]

/-! ## Helper lemmas -/

theorem firstMaxByLen_eq_none {l : List (String × String)} :
    firstMaxByLen l = none ↔ l = [] := by
  cases l with
  | nil => simp [firstMaxByLen]
  | cons a rest =>
    cases h : firstMaxByLen rest <;> simp [firstMaxByLen, h]
    split <;> simp

theorem firstMaxByLen_mem {l : List (String × String)} {kv : String × String}
    (h : firstMaxByLen l = some kv) : kv ∈ l := by
  induction l with
  | nil => simp [firstMaxByLen] at h
  | cons a rest ih =>
    cases hrest : firstMaxByLen rest with
    | none =>
      rw [firstMaxByLen, hrest] at h
      simp at h
      simp [h]
    | some best =>
      rw [firstMaxByLen, hrest] at h
      simp at h
      split at h
      · simp at h
        subst h
        exact List.mem_cons_of_mem _ (ih hrest)
      · simp at h
        simp [h]

theorem firstMaxByLen_le {l : List (String × String)} {kv : String × String}
    (h : firstMaxByLen l = some kv) :
    ∀ x ∈ l, x.1.length ≤ kv.1.length := by
  induction l generalizing kv with
  | nil => simp [firstMaxByLen] at h
  | cons a rest ih =>
    intro x hx
    cases hrest : firstMaxByLen rest with
    | none =>
      have hnil : rest = [] := firstMaxByLen_eq_none.mp hrest
      subst hnil
      rw [firstMaxByLen, hrest] at h
      simp at h
      subst h
      simp at hx
      simp [hx]
    | some best =>
      rw [firstMaxByLen, hrest] at h
      simp at h
      rcases List.mem_cons.mp hx with hxa | hxr
      · subst hxa
        split at h
        · simp at h
          subst h
          omega
        · simp at h
          subst h
          exact Nat.le_refl _
      · have hxb := ih hrest x hxr
        split at h
        · simp at h
          subst h
          exact hxb
        · simp at h
          subst h
          omega

theorem firstMaxByLen_append_cons (l₁ l₂ : List (String × String)) (a : String × String)
    (h₁ : ∀ x ∈ l₁, x.1.length < a.1.length)
    (h₂ : ∀ x ∈ l₂, x.1.length ≤ a.1.length) :
    firstMaxByLen (l₁ ++ a :: l₂) = some a := by
  induction l₁ with
  | nil =>
    simp only [List.nil_append]
    cases hrest : firstMaxByLen l₂ with
    | none => rw [firstMaxByLen, hrest]
    | some best =>
      have hb : best.1.length ≤ a.1.length := h₂ best (firstMaxByLen_mem hrest)
      rw [firstMaxByLen, hrest]
      simp [Nat.not_lt.mpr hb]
  | cons x l₁' ih =>
    have hx := h₁ x (List.mem_cons_self x l₁')
    have ih' := ih (fun y hy => h₁ y (List.mem_cons_of_mem _ hy))
    rw [List.cons_append, firstMaxByLen, ih']
    simp [hx]

theorem find?_append_cons {α : Type} (p : α → Bool) (l₁ l₂ : List α) (a : α)
    (h₁ : ∀ x ∈ l₁, p x = false) (ha : p a = true) :
    List.find? p (l₁ ++ a :: l₂) = some a := by
  induction l₁ with
  | nil => simp [List.find?, ha]
  | cons x t ih =>
    have hx := h₁ x (List.mem_cons_self x t)
    rw [List.cons_append, List.find?, hx]
    exact ih (fun y hy => h₁ y (List.mem_cons_of_mem _ hy))

theorem foldl_process_news_step (news_items : List (ContractNews × RecordOutcome))
    (qs : List (ContractNews × Qualification)) (hs : List String) :
    news_items.foldl process_news_step (qs, hs) =
      (qs ++ acceptedPairs news_items, hs ++ acceptedTitles news_items) := by
  induction news_items generalizing qs hs with
  | nil => simp [acceptedPairs, acceptedTitles]
  | cons item rest ih =>
    rw [List.foldl_cons]
    cases hout : item.2 with
    | completed q =>
      by_cases hq : q.qualified
      · simp [process_news_step, hout, hq, ih, acceptedPairs, acceptedTitles]
      · simp [process_news_step, hout, hq, ih, acceptedPairs, acceptedTitles]
    | dupCheckError => simp [process_news_step, hout, ih, acceptedPairs, acceptedTitles]
    | duplicate => simp [process_news_step, hout, ih, acceptedPairs, acceptedTitles]
    | qualifyError => simp [process_news_step, hout, ih, acceptedPairs, acceptedTitles]

theorem acceptedPairs_eq_nil {news_items : List (ContractNews × RecordOutcome)}
    (h : news_items.all (fun item =>
          match item.2 with
          | RecordOutcome.completed q => !q.qualified
          | _ => true) = true) :
    acceptedPairs news_items = [] := by
  induction news_items with
  | nil => rfl
  | cons item rest ih =>
    rw [List.all_cons, Bool.and_eq_true] at h
    obtain ⟨h1, h2⟩ := h
    cases hout : item.2 with
    | completed q =>
      rw [hout] at h1
      simp at h1
      simp [acceptedPairs, hout, h1, ih h2]
    | dupCheckError => simp [acceptedPairs, hout, ih h2]
    | duplicate => simp [acceptedPairs, hout, ih h2]
    | qualifyError => simp [acceptedPairs, hout, ih h2]

/-! ## Claim theorems -/

/-- C4: for every title, company and security code,
`is_infrastructure_related` returns `true` if and only if no exclusion
keyword occurs in the lowercased title, and some infrastructure-taxonomy
keyword occurs in the lowercased title or lowercased company name, and
(some value indicator occurs in the lowercased title or some strong
keyword occurs in the lowercased title); in particular any title
containing an exclusion keyword yields `false` regardless of all other
signals. -/
theorem is_infrastructure_related_spec (title company security_code : String) :
    (is_infrastructure_related title company security_code = true ↔
      ((∀ k ∈ EXCLUDE_KEYWORDS, strContains (lowerStr title) (lowerStr k) = false) ∧
       (∃ k ∈ INFRA_KEYWORDS, strContains (lowerStr title) (lowerStr k) = true ∨
          strContains (lowerStr company) (lowerStr k) = true) ∧
       ((∃ i ∈ value_indicators, strContains (lowerStr title) i = true) ∨
        (∃ k ∈ strong_keywords, strContains (lowerStr title) k = true)))) ∧
    (∀ k ∈ EXCLUDE_KEYWORDS, strContains (lowerStr title) (lowerStr k) = true →
      is_infrastructure_related title company security_code = false) := by
  cases hex : EXCLUDE_KEYWORDS.any (fun keyword => strContains (lowerStr title) (lowerStr keyword)) with
  | false =>
    have hall : ∀ k ∈ EXCLUDE_KEYWORDS, strContains (lowerStr title) (lowerStr k) = false := by
      intro k hk
      have := List.any_eq_false.mp hex k hk
      simpa using this
    constructor
    · simp only [is_infrastructure_related, hex, Bool.false_eq_true, if_false,
        Bool.and_eq_true, Bool.or_eq_true, List.any_eq_true]
      constructor
      · rintro ⟨hinfra, hvs⟩
        exact ⟨hall, hinfra, hvs⟩
      · rintro ⟨-, hinfra, hvs⟩
        exact ⟨hinfra, hvs⟩
    · intro k hk hck
      have := hall k hk
      rw [this] at hck
      exact absurd hck (by simp)
  | true =>
    constructor
    · simp only [is_infrastructure_related, hex, if_true]
      constructor
      · intro h
        exact absurd h (by simp)
      · rintro ⟨hall, -, -⟩
        obtain ⟨k, hk, hck⟩ := List.any_eq_true.mp hex
        have := hall k hk
        rw [this] at hck
        exact absurd hck (by simp)
    · intro k hk hck
      simp [is_infrastructure_related, hex]

/-- C4 witness: a title carrying the exclusion keyword "board meeting" is
rejected even though it also has infrastructure keywords and value
indicators. -/
theorem is_infrastructure_related_spec_witness :
    is_infrastructure_related "Board Meeting for steel plant Rs. 100 crore project"
      "JSW Steel" "500228" = false :=
  (is_infrastructure_related_spec "Board Meeting for steel plant Rs. 100 crore project"
      "JSW Steel" "500228").2 "board meeting" (by decide) (by decide)

/-- C2 (amended): for every input text, `extract_project_type` returns
"Infrastructure Project" when no mapping keyword matches; otherwise it
returns the category mapped to the matching keyword of maximal length,
with ties among equally long matches resolved to the keyword listed
first in the mapping (by stability of Python's `list.sort`): for every
split of the mapping at a matching keyword `kv` such that every earlier
matching keyword is strictly shorter and no later matching keyword is
longer, the result is exactly `kv`'s category.  For any text containing
"solar power" in which no strictly longer keyword matches, it returns
the category mapped to "solar power" ("Renewable Energy - Solar") and
never a category via a shorter keyword ("power" itself is not a mapping
key). -/
theorem extract_project_type_longest_match (text : String) :
    ((∀ kv ∈ PROJECT_TYPE_MAPPING,
        strContains (lowerStr text) (lowerStr kv.1) = false) →
      extract_project_type text = "Infrastructure Project") ∧
    (∀ (l₁ l₂ : List (String × String)) (kv : String × String),
      PROJECT_TYPE_MAPPING = l₁ ++ kv :: l₂ →
      strContains (lowerStr text) (lowerStr kv.1) = true →
      (∀ x ∈ l₁, strContains (lowerStr text) (lowerStr x.1) = true →
        x.1.length < kv.1.length) →
      (∀ x ∈ l₂, strContains (lowerStr text) (lowerStr x.1) = true →
        x.1.length ≤ kv.1.length) →
      extract_project_type text = kv.2) ∧
    (strContains (lowerStr text) "solar power" = true →
     (∀ kv ∈ PROJECT_TYPE_MAPPING,
        strContains (lowerStr text) (lowerStr kv.1) = true → kv.1.length ≤ 11) →
     extract_project_type text = "Renewable Energy - Solar") := by
  have hmain : ∀ (l₁ l₂ : List (String × String)) (kv : String × String),
      PROJECT_TYPE_MAPPING = l₁ ++ kv :: l₂ →
      strContains (lowerStr text) (lowerStr kv.1) = true →
      (∀ x ∈ l₁, strContains (lowerStr text) (lowerStr x.1) = true →
        x.1.length < kv.1.length) →
      (∀ x ∈ l₂, strContains (lowerStr text) (lowerStr x.1) = true →
        x.1.length ≤ kv.1.length) →
      extract_project_type text = kv.2 := by
    intro l₁ l₂ kv hsplit hkv hbefore hafter
    have hfilter : PROJECT_TYPE_MAPPING.filter
        (fun x => strContains (lowerStr text) (lowerStr x.1)) =
        (l₁.filter (fun x => strContains (lowerStr text) (lowerStr x.1))) ++
          kv :: (l₂.filter (fun x => strContains (lowerStr text) (lowerStr x.1))) := by
      rw [hsplit, List.filter_append, List.filter_cons]
      simp [hkv]
    have hfm : firstMaxByLen (PROJECT_TYPE_MAPPING.filter
        (fun x => strContains (lowerStr text) (lowerStr x.1))) = some kv := by
      rw [hfilter]
      apply firstMaxByLen_append_cons
      · intro x hx
        rw [List.mem_filter] at hx
        exact hbefore x hx.1 hx.2
      · intro x hx
        rw [List.mem_filter] at hx
        exact hafter x hx.1 hx.2
    rw [extract_project_type, hfm]
  refine ⟨?_, hmain, ?_⟩
  · intro hnone
    have hnil : PROJECT_TYPE_MAPPING.filter
        (fun kv => strContains (lowerStr text) (lowerStr kv.1)) = [] :=
      List.filter_eq_nil_iff.mpr (fun kv hkv => by simp [hnone kv hkv])
    rw [extract_project_type, hnil, firstMaxByLen]
  · intro hsp hcap
    have hlow : lowerStr "solar power" = "solar power" := by decide
    refine hmain
      [("solar", "Renewable Energy - Solar"), ("solar park", "Renewable Energy - Solar")]
      (PROJECT_TYPE_MAPPING.drop 3)
      ("solar power", "Renewable Energy - Solar") rfl ?_ ?_ ?_
    · show strContains (lowerStr text) (lowerStr "solar power") = true
      rw [hlow]
      exact hsp
    · intro x hx hmatch
      simp at hx
      rcases hx with h | h <;> subst h <;> decide
    · intro x hx hmatch
      have hxm : x ∈ PROJECT_TYPE_MAPPING := by
        have hsplit : PROJECT_TYPE_MAPPING =
            [("solar", "Renewable Energy - Solar"),
             ("solar park", "Renewable Energy - Solar")] ++
            ("solar power", "Renewable Energy - Solar") :: PROJECT_TYPE_MAPPING.drop 3 := rfl
        rw [hsplit]
        exact List.mem_append_right _ (List.mem_cons_of_mem _ hx)
      calc x.1.length ≤ 11 := hcap x hxm hmatch
        _ = ("solar power", "Renewable Energy - Solar").1.length := by decide

/-- C2 counterexample: the text "solar power water treatment" contains
both "power" and "solar power", yet `extract_project_type` returns the
category mapped to the longer match "water treatment"
("Water Infrastructure"), not the category mapped to "solar power"
("Renewable Energy - Solar") — refuting the claim's "for any text
containing both 'power' and 'solar power'" clause. -/
theorem extract_project_type_longest_match_cex :
    strContains (lowerStr "solar power water treatment") "solar power" = true ∧
    strContains (lowerStr "solar power water treatment") "power" = true ∧
    extract_project_type "solar power water treatment" = "Water Infrastructure" ∧
    "Water Infrastructure" ≠ "Renewable Energy - Solar" := by
  refine ⟨by decide, by decide, ?_, by decide⟩
  decide

/-- C2 witness: the tie-break, exercised on an observable tie:
"highway and railway upgrade" matches both "highway" and "railway"
(length 7 each, mapped to distinct categories) and the first-listed
"highway" wins; the split places "highway" at position 22 of the
mapping, every earlier matching keyword (none) is shorter, and every
later matching keyword ("railway", "rail") is no longer. -/
theorem extract_project_type_longest_match_witness :
    extract_project_type "highway and railway upgrade" = "Transportation - Highway" :=
  (extract_project_type_longest_match "highway and railway upgrade").2.1
    (PROJECT_TYPE_MAPPING.take 22) (PROJECT_TYPE_MAPPING.drop 23)
    ("highway", "Transportation - Highway") rfl (by decide) (by decide) (by decide)

/-- C5: for every input text, `extract_location` returns a title-cased
gazetteer entry whenever some gazetteer entry is a substring of the
lowercased text — taking priority over the "in <Capitalized Word(s)>"
regex fallback regardless of position; when no gazetteer entry matches
it returns the first capture group of the regex fallback; when neither
matches it returns the empty string. -/
theorem extract_location_gazetteer_priority (text : String) :
    ((∃ loc ∈ INDIAN_LOCATIONS, strContains (lowerStr text) loc = true) →
      ∃ loc ∈ INDIAN_LOCATIONS, strContains (lowerStr text) loc = true ∧
        extract_location text = titleStr loc) ∧
    ((∀ loc ∈ INDIAN_LOCATIONS, strContains (lowerStr text) loc = false) →
      (∀ cap, regexFirstCapture matchInAt text.data = some cap →
        extract_location text = String.mk cap) ∧
      (regexFirstCapture matchInAt text.data = none → extract_location text = "")) := by
  cases hf : INDIAN_LOCATIONS.find? (fun location => strContains (lowerStr text) location) with
  | some loc =>
    have hmem := List.mem_of_find?_eq_some hf
    have hp : strContains (lowerStr text) loc = true := by
      simpa using List.find?_some hf
    constructor
    · intro _
      exact ⟨loc, hmem, hp, by rw [extract_location, hf]⟩
    · intro hnone
      have := hnone loc hmem
      rw [hp] at this
      exact absurd this (by simp)
  | none =>
    constructor
    · rintro ⟨loc, hmem, hc⟩
      have := List.find?_eq_none.mp hf loc hmem
      simp [hc] at this
    · intro _
      constructor
      · intro cap hcap
        rw [extract_location, hf, hcap]
      · intro hnone
        rw [extract_location, hf, hnone]

/-- C5 witness: a gazetteer term ("Maharashtra") beats a later "in X"
phrase ("in Nagpur Region") appearing in the same text. -/
theorem extract_location_gazetteer_priority_witness :
    ∃ loc ∈ INDIAN_LOCATIONS,
      strContains (lowerStr "Contract for Maharashtra plant in Nagpur Region") loc = true ∧
      extract_location "Contract for Maharashtra plant in Nagpur Region" = titleStr loc :=
  (extract_location_gazetteer_priority "Contract for Maharashtra plant in Nagpur Region").1
    ⟨"maharashtra", by decide, by decide⟩

/-- C9: when several gazetteer entries occur in the lowercased text,
`extract_location` returns the one listed earliest in
`INDIAN_LOCATIONS` (here stated for the entry `loc` at an arbitrary
split of the table: no entry listed before `loc` matches), not the entry
occurring earliest in the text. -/
theorem extract_location_list_order (text loc : String) (l₁ l₂ : List String)
    (hsplit : INDIAN_LOCATIONS = l₁ ++ loc :: l₂)
    (hloc : strContains (lowerStr text) loc = true)
    (hbefore : ∀ x ∈ l₁, strContains (lowerStr text) x = false) :
    extract_location text = titleStr loc := by
  rw [extract_location, hsplit, find?_append_cons _ _ _ _ hbefore hloc]

/-- C9 witness: "The Mumbai before Delhi corridor" mentions "Mumbai"
before "Delhi" in the text, but 'delhi' (position 28, in the states
block) precedes 'mumbai' (position 35) in `INDIAN_LOCATIONS`, so the
result is "Delhi". -/
theorem extract_location_list_order_witness :
    extract_location "The Mumbai before Delhi corridor" = "Delhi" := by
  have h := extract_location_list_order "The Mumbai before Delhi corridor" "delhi"
    ["andhra pradesh", "arunachal pradesh", "assam", "bihar", "chhattisgarh", "goa", "gujarat",
     "haryana", "himachal pradesh", "jharkhand", "karnataka", "kerala", "madhya pradesh",
     "maharashtra", "manipur", "meghalaya", "mizoram", "nagaland", "odisha", "punjab",
     "rajasthan", "sikkim", "tamil nadu", "telangana", "tripura", "uttar pradesh",
     "uttarakhand", "west bengal"]
    ["chandigarh", "puducherry", "ladakh", "jammu and kashmir", "lakshadweep",
     "andaman and nicobar",
     "mumbai", "delhi", "bangalore", "bengaluru", "hyderabad", "chennai", "kolkata", "ahmedabad",
     "pune", "jaipur", "lucknow", "kanpur", "nagpur", "indore", "thane", "bhopal",
     "visakhapatnam", "surat", "coimbatore", "kochi", "vadodara", "agra", "nashik", "patna",
     "faridabad", "meerut", "rajkot", "kalyan", "vasai", "varanasi", "srinagar", "ghaziabad",
     "amritsar", "raipur"]
    (by decide) (by decide) (by decide)
  rw [h]
  decide

/-- C3 (amended): `extract_contract_value` implements strict
first-match-wins priority across its four regex passes: the result comes
from the highest-priority pass whose leftmost match exists (pass 1 INR,
pass 2 USD, pass 3 "value of" with currency inferred from markers in the
text, pass 4 bare number+unit only when passes 1-3 all missed), and the
empty string is returned when no pass matches.  The claim's example holds
in the amended form: the result is "Rs. 500 crore" for a text containing
both "Rs. 500 crore" and "200 MW" *whose leftmost pass-1 match is the
"500 crore" one* — not for arbitrary such texts (see the
counterexample). -/
theorem extract_contract_value_priority (text : String) :
    (∀ n, regexFirstCapture matchInrAt (lowerStr text).data = some n →
      extract_contract_value text = "Rs. " ++ String.mk n ++ " crore") ∧
    (regexFirstCapture matchInrAt (lowerStr text).data = none →
     ∀ n, regexFirstCapture matchUsdAt (lowerStr text).data = some n →
      extract_contract_value text = "USD " ++ String.mk n ++ " million") ∧
    (regexFirstCapture matchInrAt (lowerStr text).data = none →
     regexFirstCapture matchUsdAt (lowerStr text).data = none →
     ∀ n, regexFirstCapture matchValueOfAt (lowerStr text).data = some n →
      extract_contract_value text ∈
        ["Rs. " ++ String.mk n ++ " crore", "USD " ++ String.mk n ++ " million",
         String.mk n ++ " crore"]) ∧
    (regexFirstCapture matchInrAt (lowerStr text).data = none →
     regexFirstCapture matchUsdAt (lowerStr text).data = none →
     regexFirstCapture matchValueOfAt (lowerStr text).data = none →
     ∀ n, regexFirstCapture matchBareAt (lowerStr text).data = some n →
      extract_contract_value text = String.mk n ++ " crore") ∧
    (regexFirstCapture matchInrAt (lowerStr text).data = none →
     regexFirstCapture matchUsdAt (lowerStr text).data = none →
     regexFirstCapture matchValueOfAt (lowerStr text).data = none →
     regexFirstCapture matchBareAt (lowerStr text).data = none →
      extract_contract_value text = "") := by
  refine ⟨?_, ?_, ?_, ?_, ?_⟩
  · intro n h1
    simp [extract_contract_value, h1]
  · intro h1 n h2
    simp [extract_contract_value, h1, h2]
  · intro h1 h2 n h3
    cases hrs : (strContains (lowerStr text) "rs" || strContains (lowerStr text) "inr" ||
        strContains (lowerStr text) "₹") with
    | true => simp [extract_contract_value, h1, h2, h3, hrs]
    | false =>
      cases husd : (strContains (lowerStr text) "usd" || strContains (lowerStr text) "$") with
      | true => simp [extract_contract_value, h1, h2, h3, hrs, husd]
      | false => simp [extract_contract_value, h1, h2, h3, hrs, husd]
  · intro h1 h2 h3 n h4
    simp [extract_contract_value, h1, h2, h3, h4]
  · intro h1 h2 h3 h4
    simp [extract_contract_value, h1, h2, h3, h4]

/-- C3 counterexample: "Rs. 2 lakh and Rs. 500 crore and 200 MW" contains
both "Rs. 500 crore" and "200 MW", yet the result is "Rs. 2 crore" — the
leftmost pass-1 match is the earlier "Rs. 2 lakh", and its unit is
rewritten to "crore" by the INR formatting — refuting the claim's "for
any text containing both" clause. -/
theorem extract_contract_value_priority_cex :
    strContains "Rs. 2 lakh and Rs. 500 crore and 200 MW" "Rs. 500 crore" = true ∧
    strContains "Rs. 2 lakh and Rs. 500 crore and 200 MW" "200 MW" = true ∧
    extract_contract_value "Rs. 2 lakh and Rs. 500 crore and 200 MW" = "Rs. 2 crore" ∧
    "Rs. 2 crore" ≠ "Rs. 500 crore" := by
  refine ⟨by decide, by decide, ?_, by decide⟩
  decide

/-- C3 witness: when "Rs. 500 crore" is the leftmost INR-pass match, the
INR value wins over the bare "200 MW". -/
theorem extract_contract_value_priority_witness :
    extract_contract_value "XYZ wins Rs. 500 crore contract for 200 MW solar plant" =
      "Rs. 500 crore" := by
  have h := (extract_contract_value_priority
    "XYZ wins Rs. 500 crore contract for 200 MW solar plant").1 "500".data (by decide)
  rw [h]
  decide

/-- C10: when only the bare number+unit pass matches (passes 1-3 all
missed), the result is always "{number} crore" regardless of which unit
was matched. -/
theorem extract_contract_value_bare_crore (text : String) (n : List Char)
    (h1 : regexFirstCapture matchInrAt (lowerStr text).data = none)
    (h2 : regexFirstCapture matchUsdAt (lowerStr text).data = none)
    (h3 : regexFirstCapture matchValueOfAt (lowerStr text).data = none)
    (h4 : regexFirstCapture matchBareAt (lowerStr text).data = some n) :
    extract_contract_value text = String.mk n ++ " crore" := by
  simp [extract_contract_value, h1, h2, h3, h4]

/-- C10 witness: "the project adds 200 MW capacity" has no currency
marker and no "value of" phrase; the bare pass matches "200 mw" and the
result is "200 crore". -/
theorem extract_contract_value_bare_crore_witness :
    extract_contract_value "the project adds 200 MW capacity" = "200 crore" := by
  have h := extract_contract_value_bare_crore "the project adds 200 MW capacity" "200".data
    (by decide) (by decide) (by decide) (by decide)
  rw [h]
  decide

/-- C6: `_call_ai_model` attempts at most the four stages, in the fixed
order DeepSeek langchain client, Gemini langchain client, direct DeepSeek
HTTP, direct Gemini HTTP, each available stage at most once; it returns
the response of the first stage that succeeds, and it raises
("All AI model calls failed") if and only if every available stage has
failed — i.e. it refines the spec-level description
`firstSuccess (availableStageResults e)`. -/
theorem call_ai_model_fallback_chain (e : AIEnv) :
    call_ai_model e =
      match firstSuccess (availableStageResults e) with
      | some r => Except.ok r
      | none => Except.error "All AI model calls failed" := by
  obtain ⟨a, b, c, d, r1, r2, r3, r4⟩ := e
  cases a <;> cases b <;> cases c <;> cases d <;>
    cases r1 <;> cases r2 <;> cases r3 <;> cases r4 <;> rfl

/-- C7: for every string response, the parsing tail of
`_qualify_news_content` never raises: it is a total function that either
returns the dict parsed (by `loads`, the model of `json.loads`) from the
first-'\x7b'-to-last-'\x7d' substring, or — on any parse failure (no such
substring, or `loads` raising) — returns the fallback dict with
`qualified = false` and a non-empty diagnostic `reasoning` string. -/
theorem qualify_news_parse_never_raises (α : Type) (loads : String → Option α)
    (result : String) :
    (∃ s d, loads s = some d ∧ qualify_news_parse loads result = QualOutcome.parsed d) ∨
    (∃ r, qualify_news_parse loads result = QualOutcome.fallback false r ∧ r ≠ "") := by
  by_cases h : (findIdx result.data '\x7b' ≥ 0 ∧
      rfindIdx result.data '\x7d' + 1 > findIdx result.data '\x7b')
  · cases hl : loads (String.mk ((result.data.drop (findIdx result.data '\x7b').toNat).take
        (rfindIdx result.data '\x7d' + 1 - findIdx result.data '\x7b').toNat)) with
    | some d =>
      left
      exact ⟨_, d, hl, by simp [qualify_news_parse, h, hl]⟩
    | none =>
      right
      exact ⟨"Failed to parse AI model response: JSONDecodeError",
        by simp [qualify_news_parse, h, hl], by decide⟩
  · right
    exact ⟨"Failed to parse AI model response",
      by simp [qualify_news_parse, h], by decide⟩

/-- C1 (amended): after `process_news` completes a batch in which at
least one new headline was produced, the persisted sent-headline list
equals the previously loaded list extended with the titles of exactly the
records of this batch that were accepted (confirmed unique AND
qualified), in batch order — records merely confirmed unique by the
duplicate check but rejected by qualification are NOT added; no other
titles are added and no prior titles are removed; and the
qualified-records table is persisted as the header row plus one row per
accepted record. -/
theorem process_news_persists_accepted (st : PipelineState)
    (news_items : List (ContractNews × RecordOutcome))
    (h : acceptedTitles news_items ≠ []) :
    (process_news st news_items).1.files.headlinesFile =
      st.sentHeadlines ++ acceptedTitles news_items ∧
    (process_news st news_items).1.files.qualifiedFile =
      csvHeader :: (acceptedPairs news_items).map (fun p => csvRow p.1 p.2) := by
  have hfold := foldl_process_news_step news_items [] []
  simp only [List.nil_append] at hfold
  have hpairs : acceptedPairs news_items ≠ [] := by
    intro hnil
    rw [acceptedTitles, hnil] at h
    simp at h
  rw [process_news, hfold]
  simp only [List.isEmpty_eq_true]
  rw [if_neg h]
  constructor
  · rfl
  · show save_qualified_news st.files.qualifiedFile (acceptedPairs news_items) = _
    rw [save_qualified_news, if_neg (by simpa [List.isEmpty_eq_true] using hpairs)]

/-- C1 counterexample: in a batch where `cexNewsA` is accepted and
`cexNewsB` is confirmed unique by the duplicate check
(`RecordOutcome.completed` means the duplicate check returned UNIQUE)
but rejected by qualification, the persisted sent-headline list gains
only A's title — not B's, contrary to the claim's "accepted OR confirmed
unique" clause. -/
theorem process_news_union_cex :
    (process_news cexState cexBatch).1.files.headlinesFile =
      ["Old headline", "Alpha wins contract"] ∧
    (process_news cexState cexBatch).1.files.headlinesFile ≠
      ["Old headline", "Alpha wins contract", "Beta wins contract"] := by
  constructor
  · decide
  · decide

/-- C1 witness: a batch with one accepted record persists exactly the
previous list plus that record's title, and rewrites the table. -/
theorem process_news_persists_accepted_witness :
    (process_news cexState cexBatchAccepted).1.files.headlinesFile =
      cexState.sentHeadlines ++ acceptedTitles cexBatchAccepted ∧
    (process_news cexState cexBatchAccepted).1.files.qualifiedFile =
      csvHeader :: (acceptedPairs cexBatchAccepted).map (fun p => csvRow p.1 p.2) :=
  process_news_persists_accepted cexState cexBatchAccepted (by decide)

/-- C8: if a batch produces no new headlines (every record is classified
duplicate, or rejected as unqualified, or errors out), then neither the
sent-headlines file nor the qualified-records table file is written: both
remain exactly in their pre-batch persisted state. -/
theorem process_news_no_new_headlines_frame (st : PipelineState)
    (news_items : List (ContractNews × RecordOutcome))
    (h : news_items.all (fun item =>
          match item.2 with
          | RecordOutcome.completed q => !q.qualified
          | _ => true) = true) :
    (process_news st news_items).1.files.headlinesFile = st.files.headlinesFile ∧
    (process_news st news_items).1.files.qualifiedFile = st.files.qualifiedFile := by
  have hnil := acceptedPairs_eq_nil h
  have hfold := foldl_process_news_step news_items [] []
  simp only [List.nil_append] at hfold
  rw [process_news, hfold, acceptedTitles, hnil]
  simp

/-- C8 witness: a batch consisting of a duplicate, a unique-but-rejected
record and two errored records leaves both files untouched. -/
theorem process_news_no_new_headlines_frame_witness :
    (process_news cexState cexBatchNoNew).1.files.headlinesFile =
      cexState.files.headlinesFile ∧
    (process_news cexState cexBatchNoNew).1.files.qualifiedFile =
      cexState.files.qualifiedFile :=
  process_news_no_new_headlines_frame cexState cexBatchNoNew (by decide)
